import Mathlib

/-!
Verification of the HistoryBuff ingestion core (backend/app/ingest) against its
specification.  The Python modules `base.py`, `pleiades.py` and
`nasa_eclipse.py` are shallowly embedded: text is modelled as `List Char`,
floats appearing only as literal lookup values are modelled as `ℚ`, database
tables are in-memory lists of rows, and every entity-creation method becomes a
pure state-transition function returning the optional generated id together
with the updated store and run statistics.

String helpers that consume more than one character per step are written with
an explicit fuel argument (initialised to the input length, which always
suffices) so that every definition reduces inside the kernel.
-/

/-- Text is modelled as a list of characters so that Python string operations
(slicing, splitting, containment) become list operations. -/
abbrev Str := List Char

/-- Decides whether the first list is a prefix of the second
(models Python `str.startswith` and is the worker for containment checks). -/
def isPre : Str → Str → Bool
  | [], _ => true
  | _ :: _, [] => false
  | a :: as, b :: bs => a = b && isPre as bs

/-- Models the Python substring test `pat in s`. -/
def containsSub (pat : Str) : Str → Bool
  | [] => pat.isEmpty
  | c :: rest => isPre pat (c :: rest) || containsSub pat rest

/-- Drops from the second list as many characters as the first list has. -/
def dropPre : Str → Str → Str
  | [], s => s
  | _ :: _, [] => []
  | _ :: ps, _ :: ss => dropPre ps ss

/-- Fuel-driven worker for `splitOnSub`; the fuel bounds the number of
characters still to be consumed. -/
def splitFuel (sep : Str) : Nat → Str → List Str
  | _, [] => [[]]
  | 0, s => [s]
  | fuel + 1, c :: rest =>
    if isPre sep (c :: rest) ∧ sep ≠ [] then
      [] :: splitFuel sep fuel (dropPre sep (c :: rest))
    else
      match splitFuel sep fuel rest with
      | [] => [[c]]
      | h :: t => (c :: h) :: t

/-- Models Python `s.split(sep)` for a non-empty separator string. -/
def splitOnSub (sep s : Str) : List Str := splitFuel sep s.length s

/-- Fuel-driven worker for `replaceSub`. -/
def replaceFuel (pat repl : Str) : Nat → Str → Str
  | _, [] => []
  | 0, s => s
  | fuel + 1, c :: rest =>
    if isPre pat (c :: rest) ∧ pat ≠ [] then
      repl ++ replaceFuel pat repl fuel (dropPre pat (c :: rest))
    else
      c :: replaceFuel pat repl fuel rest

/-- Models Python `s.replace(pat, repl)` (all occurrences, left to right),
for a non-empty pattern. -/
def replaceSub (pat repl s : Str) : Str := replaceFuel pat repl s.length s

/-- Models Python `s.endswith(pat)`. -/
def pyEndsWith (s pat : Str) : Bool :=
  decide (List.drop (s.length - pat.length) s = pat)

/-- Lower-cases one ASCII character (models `str.lower` on the ASCII
vocabulary the ingestors handle). -/
def lowerCh (c : Char) : Char :=
  if 'A' ≤ c ∧ c ≤ 'Z' then Char.ofNat (c.toNat + 32) else c

/-- Models Python `s.lower()`. -/
def lowerStr (s : Str) : Str := s.map lowerCh

/-- Whitespace test used by `stripStr`. -/
def isSpaceCh (c : Char) : Bool :=
  c = ' ' ∨ c = '\t' ∨ c = '\n' ∨ c = '\r'

/-- Models Python `s.strip()` (common whitespace characters). -/
def stripStr (s : Str) : Str :=
  ((s.dropWhile isSpaceCh).reverse.dropWhile isSpaceCh).reverse

/-- Decimal digit character for a digit value below ten. -/
def digCh : Nat → Char
  | 0 => '0' | 1 => '1' | 2 => '2' | 3 => '3' | 4 => '4'
  | 5 => '5' | 6 => '6' | 7 => '7' | 8 => '8' | _ => '9'

/-- Fuel-driven worker for `natDigits`. -/
def natDigitsFuel : Nat → Nat → Str
  | 0, _ => []
  | fuel + 1, n =>
    if n < 10 then [digCh n]
    else natDigitsFuel fuel (n / 10) ++ [digCh (n % 10)]

/-- Decimal rendering of a natural number (models how Python formats a
non-negative integer). -/
def natDigits (n : Nat) : Str := natDigitsFuel (n + 1) n

/-- Decimal rendering of an integer with a leading minus sign when negative. -/
def intToStr (i : Int) : Str :=
  if i < 0 then '-' :: natDigits i.natAbs else natDigits i.toNat

/-- Numeric value of a digit character. -/
def digVal (c : Char) : Nat := c.toNat - 48

/-- Models Python `int(s)` on a string of decimal digits. -/
def parseNat (s : Str) : Nat :=
  s.foldl (fun acc c => 10 * acc + digVal c) 0

/-- Left-pads a digit string with zeros to the requested width
(models zero-padded fixed-width integer formatting of a non-negative value). -/
def padNat (width n : Nat) : Str :=
  List.replicate (width - (natDigits n).length) '0' ++ natDigits n

/-- Models Python joins such as `", ".join(parts)`. -/
def joinWith (sep : Str) (parts : List Str) : Str :=
  List.intercalate sep parts

/-- Models Python `s.isdigit()` (non-empty and all decimal digits). -/
def pyIsDigit (s : Str) : Bool :=
  decide (s ≠ []) && s.all (fun c => '0' ≤ c ∧ c ≤ '9')

example : containsSub "places".data "pleiades.stoa.org/places/1".data = true := by decide
example : splitOnSub "/places/".data "https://x.org/places/413005".data
    = ["https://x.org".data, "413005".data] := by decide
example : replaceSub " BC".data [] "0584-05-28 BC".data = "0584-05-28".data := by decide
example : natDigits 584 = "584".data := by decide
example : padNat 4 584 = "0584".data := by decide
example : parseNat "0584".data = 584 := by decide
example : lowerStr "Urban Settlement".data = "urban settlement".data := by decide
example : stripStr "  Rome ".data = "Rome".data := by decide
example : pyEndsWith "0584-05-28 BC".data " BC".data = true := by decide
example : pyEndsWith "0029-11-24".data " BC".data = false := by decide

/-! ## Embedding of `backend/app/ingest/base.py` (`BaseIngestor`) -/

/-- Run-statistics record initialised in `BaseIngestor.__init__`; one field
per counter, in the order of the Python dict. -/
structure Stats where
  sources_created : Nat := 0
  sources_skipped : Nat := 0
  factoids_created : Nat := 0
  factoids_skipped : Nat := 0
  placements_created : Nat := 0
  locations_created : Nat := 0
  locations_skipped : Nat := 0
  actors_created : Nat := 0
  actors_skipped : Nat := 0
  connections_created : Nat := 0
  errors : Nat := 0
deriving DecidableEq

/-- Fresh statistics record (all counters zero). -/
def initStats : Stats := {}

/-- Structured historical-name record as the Pleiades adapter builds it
(each optional field is present only when the adapter added the key). -/
structure HistName where
  name : Str
  language : Option Str := none
  romanized : Option Str := none
  period_start : Option Str := none
  period_end : Option Str := none
  attested_periods : Option (List Str) := none
  source : Option Str := none
deriving DecidableEq

/-- Element of a location's stored `name_historical` JSON array: either a bare
string (in particular the appended external identifier) or a structured name
record.  A bare string never equals a structured record, mirroring JSON. -/
inductive NameEntry
  | raw : Str → NameEntry
  | obj : HistName → NameEntry
deriving DecidableEq

/-- Row of the `locations` table with the columns `create_location` inserts. -/
structure LocationRow where
  id : Nat
  name_modern : Option Str
  name_historical : List NameEntry
  location_type : Str
  location_subtype : Option Str
  coordinate_x : Option ℚ
  coordinate_y : Option ℚ
  uncertainty_radius_km : Option ℚ
  description : Option Str
deriving DecidableEq

/-- Row of the `actors` table with the columns `create_actor` inserts. -/
structure ActorRow where
  id : Nat
  name_primary : Str
  name_aliases : List Str
  actor_type : Str
  actor_subtype : Option Str
  raw_temporal_evidence : Option Str
  description : Option Str
  known_biases : Option Str
deriving DecidableEq

/-- Row of the `factoids` table with the columns `create_factoid` inserts. -/
structure FactoidRow where
  id : Nat
  description : Str
  summary : Option Str
  factoid_type : Str
  layer : Str
  raw_observation : Option Str
  raw_observation_type : Option Str
  status : Str
deriving DecidableEq

/-- Row of the `factoid_placements` table.  Dates travel as the store's
date-literal strings; the frame id is the UUID string the resolver passes. -/
structure PlacementRow where
  factoid_id : Nat
  frame_id : Str
  date_start : Option Str
  date_end : Option Str
  date_precision : Str
  placement_confidence : ℚ
  reasoning : Option Str
  placement_type : Str
deriving DecidableEq

/-- Row of the `connections` table.  Entity ids model the UUID strings the
store generates (which are always non-empty, hence truthy in Python). -/
structure ConnectionRow where
  from_entity_type : Str
  from_entity_id : Nat
  to_entity_type : Str
  to_entity_id : Nat
  connection_type : Str
  confidence : ℚ
  notes : Option Str
deriving DecidableEq

/-- In-memory model of the relational store reachable through the pool:
one list of rows per table plus the generator for fresh ids. -/
structure Store where
  nextId : Nat
  locations : List LocationRow
  actors : List ActorRow
  factoids : List FactoidRow
  placements : List PlacementRow
  connections : List ConnectionRow
deriving DecidableEq

/-- Store with no rows. -/
def emptyStore : Store := ⟨1, [], [], [], [], []⟩

/-- Python truthiness of an optional string (None and the empty string are
falsy). -/
def optStrTruthy : Option Str → Bool
  | none => false
  | some s => decide (s ≠ [])

/-- Python truthiness of an optional list (None and the empty list are
falsy). -/
def optListTruthy {α : Type} : Option (List α) → Bool
  | none => false
  | some l => !l.isEmpty

/-- Models Python `x or []` on an optional list argument. -/
def pyOrNilList {α : Type} : Option (List α) → List α
  | none => []
  | some l => if l.isEmpty then [] else l

/-- Lookup used by `create_location` when an external id is given: the jsonb
containment `name_historical @> '["<external_id>"]'` holds exactly when the
stored array has the external id as a bare string element. -/
def extLocLookup (st : Store) : Option Str → Option Nat
  | none => none
  | some e =>
    if e = [] then none
    else (st.locations.find? (fun r => decide (NameEntry.raw e ∈ r.name_historical))).map
      (fun r => r.id)

/-- Embeds `BaseIngestor.create_location`: validation, external-id dedup
lookup, append of the external id to the historical names, insert. -/
def createLocation (st : Store) (stats : Stats)
    (name_modern : Option Str) (name_historical : Option (List NameEntry))
    (location_type : Str) (location_subtype : Option Str)
    (longitude latitude : Option ℚ) (uncertainty_radius_km : Option ℚ)
    (description : Option Str) (external_id : Option Str) :
    Option Nat × Store × Stats :=
  if ¬ optStrTruthy name_modern ∧ ¬ optListTruthy name_historical then
    (none, st, { stats with locations_skipped := stats.locations_skipped + 1 })
  else
    match extLocLookup st external_id with
    | some hit =>
      (some hit, st, { stats with locations_skipped := stats.locations_skipped + 1 })
    | none =>
      let base := pyOrNilList name_historical
      let hist_names :=
        match external_id with
        | some e => if e ≠ [] ∧ NameEntry.raw e ∉ base then base ++ [NameEntry.raw e] else base
        | none => base
      let row : LocationRow :=
        ⟨st.nextId, name_modern, hist_names, location_type, location_subtype,
         longitude, latitude, uncertainty_radius_km, description⟩
      (some st.nextId,
       { st with locations := st.locations ++ [row], nextId := st.nextId + 1 },
       { stats with locations_created := stats.locations_created + 1 })

/-- Lookup used by `create_actor` when an external id is given: jsonb
containment of the external id in the stored alias array. -/
def extActorLookup (st : Store) : Option Str → Option Nat
  | none => none
  | some e =>
    if e = [] then none
    else (st.actors.find? (fun r => decide (e ∈ r.name_aliases))).map (fun r => r.id)

/-- Embeds `BaseIngestor.create_actor`: length validation, external-id-in-
aliases dedup, exact primary-name dedup, append of the external id to the
aliases, insert. -/
def createActor (st : Store) (stats : Stats)
    (name_primary : Str) (actor_type : Str) (actor_subtype : Option Str)
    (name_aliases : Option (List Str)) (raw_temporal_evidence : Option Str)
    (description : Option Str) (known_biases : Option Str)
    (external_id : Option Str) : Option Nat × Store × Stats :=
  if name_primary = [] ∨ name_primary.length < 2 then
    (none, st, { stats with actors_skipped := stats.actors_skipped + 1 })
  else
    match extActorLookup st external_id with
    | some hit =>
      (some hit, st, { stats with actors_skipped := stats.actors_skipped + 1 })
    | none =>
      match st.actors.find? (fun r => decide (r.name_primary = name_primary)) with
      | some r =>
        (some r.id, st, { stats with actors_skipped := stats.actors_skipped + 1 })
      | none =>
        let base := pyOrNilList name_aliases
        let aliases :=
          match external_id with
          | some e => if e ≠ [] ∧ e ∉ base then base ++ [e] else base
          | none => base
        let row : ActorRow :=
          ⟨st.nextId, name_primary, aliases, actor_type, actor_subtype,
           raw_temporal_evidence, description, known_biases⟩
        (some st.nextId,
         { st with actors := st.actors ++ [row], nextId := st.nextId + 1 },
         { stats with actors_created := stats.actors_created + 1 })

/-- Embeds `BaseIngestor.create_factoid`: length validation, then
unconditional insert (no dedup). -/
def createFactoid (st : Store) (stats : Stats)
    (description : Str) (factoid_type : Str) (layer : Str)
    (raw_observation raw_observation_type summary : Option Str)
    (status : Str) : Option Nat × Store × Stats :=
  if description = [] ∨ description.length < 10 then
    (none, st, { stats with factoids_skipped := stats.factoids_skipped + 1 })
  else
    let row : FactoidRow :=
      ⟨st.nextId, description, summary, factoid_type, layer,
       raw_observation, raw_observation_type, status⟩
    (some st.nextId,
     { st with factoids := st.factoids ++ [row], nextId := st.nextId + 1 },
     { stats with factoids_created := stats.factoids_created + 1 })

/-- Models Python `str(x)` applied to an optional id: `str(None)` is the
literal four-character string "None", which is truthy. -/
def pyStrOfOpt : Option Str → Str
  | none => "None".data
  | some s => s

/-- Modelled from the spec: the placements table itself is outside this core
(only the reference to its `ON CONFLICT DO NOTHING` insert is in `src`); the
spec states the placement insert is idempotent "keyed on (factoid, frame, …)",
so a conflict occurs exactly when a row with the same factoid and frame is
already stored. -/
def placementConflict (st : Store) (factoid_id : Nat) (frame_id : Str) : Bool :=
  st.placements.any (fun r => r.factoid_id = factoid_id ∧ r.frame_id = frame_id)

/-- Embeds `BaseIngestor.create_placement`.  `defaultFrame` models the
`self.default_frame_id` attribute fetched once in `connect` (`none` when the
reference-frames table has no default row).  The frame resolution mirrors
`frame_id = frame_id or str(self.default_frame_id)` followed by
`if not frame_id`. -/
def createPlacement (st : Store) (stats : Stats) (defaultFrame : Option Str)
    (factoid_id : Nat) (frame_id : Option Str)
    (date_start date_end : Option Str) (date_precision : Str)
    (placement_confidence : ℚ) (reasoning : Option Str)
    (placement_type : Str) : Option Nat × Store × Stats :=
  let resolved : Str :=
    match frame_id with
    | some f => if f = [] then pyStrOfOpt defaultFrame else f
    | none => pyStrOfOpt defaultFrame
  if resolved = [] then
    (none, st, stats)
  else if placementConflict st factoid_id resolved then
    (none, st, stats)
  else
    let row : PlacementRow :=
      ⟨factoid_id, resolved, date_start, date_end, date_precision,
       placement_confidence, reasoning, placement_type⟩
    (some st.nextId,
     { st with placements := st.placements ++ [row], nextId := st.nextId + 1 },
     { stats with placements_created := stats.placements_created + 1 })

/-- Embeds `BaseIngestor.create_connection`: constructive-only insert, no
dedup, counter incremented on every call. -/
def createConnection (st : Store) (stats : Stats)
    (from_entity_type : Str) (from_entity_id : Nat)
    (to_entity_type : Str) (to_entity_id : Nat)
    (connection_type : Str) (confidence : ℚ) (notes : Option Str) :
    Option Nat × Store × Stats :=
  let row : ConnectionRow :=
    ⟨from_entity_type, from_entity_id, to_entity_type, to_entity_id,
     connection_type, confidence, notes⟩
  (some st.nextId,
   { st with connections := st.connections ++ [row], nextId := st.nextId + 1 },
   { stats with connections_created := stats.connections_created + 1 })

/-- Embeds the counter side effect of `BaseIngestor.log_error`. -/
def logError (stats : Stats) : Stats := { stats with errors := stats.errors + 1 }

/-! ## Embedding of `backend/app/ingest/nasa_eclipse.py` (temporal encoder) -/

/-- Embeds `make_date_string`: a year at or below zero is BCE and is encoded
as the absolute value zero-padded to four digits with the " BC" suffix. -/
def makeDateString (year : Int) (month day : Nat) : Str :=
  if year ≤ 0 then
    (padNat 4 year.natAbs ++ "-".data ++ padNat 2 month ++ "-".data ++ padNat 2 day)
      ++ " BC".data
  else
    padNat 4 year.toNat ++ "-".data ++ padNat 2 month ++ "-".data ++ padNat 2 day

/-- Embeds `NASAEclipseIngestor._format_date_display`: when the literal ends
in " BC" the suffix is removed, the rest is split on "-", the first part is
parsed as the year and rendered with "BCE"; otherwise with "CE". -/
def formatDateDisplay (date_str : Str) : Str :=
  if pyEndsWith date_str " BC".data then
    let parts := splitOnSub "-".data (replaceSub " BC".data [] date_str)
    natDigits (parseNat (parts.headD [])) ++ " BCE".data
  else
    let parts := splitOnSub "-".data date_str
    natDigits (parseNat (parts.headD [])) ++ " CE".data

example : makeDateString (-584) 5 28 = "0584-05-28 BC".data := by decide
example : makeDateString 29 11 24 = "0029-11-24".data := by decide
example : formatDateDisplay "0584-05-28 BC".data = "584 BCE".data := by decide
example : formatDateDisplay "0029-11-24".data = "29 CE".data := by decide

/-! ## Embedding of `backend/app/ingest/pleiades.py` (`PleiadesIngestor`) -/

/-- Embeds `PleiadesIngestor._year_to_date_string`: only strictly negative
years receive the " BC" suffix; year zero is rendered "0000-01-01". -/
def pleiadesYearToDateString (year : Int) : Str :=
  if year < 0 then padNat 4 year.natAbs ++ "-01-01 BC".data
  else padNat 4 year.toNat ++ "-01-01".data

/-- JSON `timePeriod` value: either a plain string or an object, the object
modelled by its `title` entry — the only key the adapter reads
(`tp.get("title", str(tp))`). -/
inductive TimePeriod
  | str : Str → TimePeriod
  | dict : Str → TimePeriod
deriving DecidableEq

/-- Python truthiness of a `timePeriod` value (an object carrying a title key
is a non-empty dict, hence truthy). -/
def tpTruthy : TimePeriod → Bool
  | .str s => !s.isEmpty
  | .dict _ => true

/-- Renders a `timePeriod` as the adapter does. -/
def tpTitle : TimePeriod → Str
  | .str s => s
  | .dict t => t

/-- Attestation object (`{timePeriod, confidence}`). -/
structure PAttestation where
  timePeriod : Option TimePeriod := none
  confidence : Str := []
deriving DecidableEq

/-- GeoJSON-style geometry object (`{type, coordinates}`). -/
structure PGeometry where
  gtype : Str
  coordinates : List ℚ := []
deriving DecidableEq

/-- Feature object (only its geometry is read). -/
structure PFeature where
  geometry : Option PGeometry := none
deriving DecidableEq

/-- Entry of a place's `names` array. -/
structure PName where
  attested : Str := []
  romanized : Str := []
  language : Str := []
  startYear : Option Int := none
  endYear : Option Int := none
  attestations : List PAttestation := []
deriving DecidableEq

/-- Entry of a place's `locations` array. -/
structure PLocation where
  title : Str := []
  startYear : Option Int := none
  endYear : Option Int := none
  geometry : Option PGeometry := none
  accuracy : Option Str := none
  location_precision : Option Str := none
  locationType : Option Str := none
  attestations : List PAttestation := []
deriving DecidableEq

/-- Connection payload attached to a place record. -/
structure PConnPayload where
  connectsTo : Str := []
  connectionType : Option Str := none
  associationCertainty : Option Str := none
  title : Str := []
  startYear : Option Int := none
  endYear : Option Int := none
  attestations : List PAttestation := []
  uri : Option Str := none
deriving DecidableEq

/-- One record of the gazetteer dump's place array, with the fields
`_process_place` and its helpers read (`references` only via its length,
modelled as a count). -/
structure PlaceRecord where
  pid : Str := []
  title : Str := []
  placeTypes : List Str := []
  reprPoint : Option (List ℚ) := none
  features : List PFeature := []
  locations : List PLocation := []
  names : List PName := []
  connections : List PConnPayload := []
  connectsWith : List Str := []
  referencesCount : Nat := 0
  description : Str := []
  review_state : Option Str := none
  bbox : Option (List ℚ) := none
deriving DecidableEq

/-- First Point geometry with at least two coordinates among a list of
optional geometries; shared worker for the feature and location fallbacks of
`_get_coordinates`. -/
def firstPoint (geoms : List (Option PGeometry)) : Option (ℚ × ℚ) :=
  geoms.findSome? (fun og =>
    match og with
    | some g =>
      if g.gtype = "Point".data then
        match g.coordinates with
        | a :: b :: _ => some (b, a)
        | _ => none
      else none
    | none => none)

/-- Embeds `PleiadesIngestor._get_coordinates`: representative point first,
then feature geometries, then location geometries; result is (lat, lon). -/
def getCoordinates (place : PlaceRecord) : Option ℚ × Option ℚ :=
  let viaRepr : Option (ℚ × ℚ) :=
    match place.reprPoint with
    | some rp =>
      if rp.length = 2 then
        match rp with
        | a :: b :: _ => some (b, a)
        | _ => none
      else none
    | none => none
  match viaRepr with
  | some p => (some p.1, some p.2)
  | none =>
    match firstPoint (place.features.map (fun f => f.geometry)) with
    | some p => (some p.1, some p.2)
    | none =>
      match firstPoint (place.locations.map (fun l => l.geometry)) with
      | some p => (some p.1, some p.2)
      | none => (none, none)

/-- Per-name body of `_build_historical_names`: empty names are dropped, the
attested form wins over the romanized one, optional keys are added only when
their source condition holds. -/
def buildOneName (n : PName) : Option NameEntry :=
  let attested := stripStr n.attested
  let romanized := stripStr n.romanized
  let name_str := if attested ≠ [] then attested else romanized
  if name_str = [] then none
  else
    let periods := n.attestations.filterMap (fun a =>
      match a.timePeriod with
      | some tp => if tpTruthy tp then some (tpTitle tp) else none
      | none => none)
    some (NameEntry.obj
      { name := name_str
        language := if n.language ≠ [] then some n.language else none
        romanized :=
          if attested ≠ [] ∧ romanized ≠ [] ∧ attested ≠ romanized then some romanized
          else none
        period_start := n.startYear.map pleiadesYearToDateString
        period_end := n.endYear.map pleiadesYearToDateString
        attested_periods := if periods ≠ [] then some periods else none
        source := some "Pleiades Gazetteer".data })

/-- Embeds `PleiadesIngestor._build_historical_names`: structured names from
the names array, the bare title as fallback, and the pleiades external id
appended as a bare string for deduplication. -/
def buildHistoricalNames (place : PlaceRecord) (pleiades_id : Str) : List NameEntry :=
  let title := stripStr place.title
  let names := place.names.filterMap buildOneName
  let names :=
    if names = [] ∧ title ≠ [] then
      [NameEntry.obj { name := title, source := some "Pleiades Gazetteer".data }]
    else names
  if pleiades_id ≠ [] then names ++ [NameEntry.raw ("pleiades:".data ++ pleiades_id)]
  else names

/-- Location-change record built by `_parse_location_changes` (coordinates
keep the raw (x, y) order of the source object). -/
structure LocationChange where
  description : Str
  coordinates : Option (ℚ × ℚ) := none
  period_start : Option Str := none
  period_end : Option Str := none
  accuracy : Option Str := none
  attested_periods : Option (List Str) := none
deriving DecidableEq

/-- Per-entry body of `_parse_location_changes`. -/
def parseOneChange (loc : PLocation) : LocationChange :=
  let change_desc := if loc.title ≠ [] then loc.title else "Location variant".data
  let coords :=
    match loc.geometry with
    | some g =>
      if g.gtype = "Point".data then
        match g.coordinates with
        | a :: b :: _ => some (a, b)
        | _ => none
      else none
    | none => none
  let periods := loc.attestations.filterMap (fun att =>
    match att.timePeriod with
    | some tp =>
      if tpTruthy tp then
        let period_title := tpTitle tp
        if period_title ≠ [] then
          some (if att.confidence ≠ [] then
              period_title ++ " (".data ++ att.confidence ++ ")".data
            else period_title)
        else none
      else none
    | none => none)
  { description := change_desc
    coordinates := coords
    period_start := loc.startYear.map pleiadesYearToDateString
    period_end := loc.endYear.map pleiadesYearToDateString
    accuracy :=
      match loc.accuracy with
      | some a => if a ≠ [] then some a else none
      | none => none
    attested_periods := if periods ≠ [] then some periods else none }

/-- Embeds `PleiadesIngestor._parse_location_changes`. -/
def parseLocationChanges (place : PlaceRecord) : Option (List LocationChange) :=
  if place.locations.isEmpty then none
  else
    let changes := place.locations.map parseOneChange
    if changes.isEmpty then none else some changes

/-- Models Python `a or b` on two optional strings. -/
def pyOrOptStr (a b : Option Str) : Option Str :=
  if optStrTruthy a then a else b

/-- Models `float()` applied to the digits-and-dots characters kept from an
accuracy value such as "200 meters"; `none` models the caught ValueError. -/
def parseFloatQ (s : Str) : Option ℚ :=
  match splitOnSub ".".data s with
  | [a] =>
    if a ≠ [] ∧ a.all (fun c => '0' ≤ c ∧ c ≤ '9') then some (parseNat a) else none
  | [a, b] =>
    if (a ++ b) ≠ [] ∧ (a ++ b).all (fun c => '0' ≤ c ∧ c ≤ '9') then
      some ((parseNat a : ℚ) + (parseNat b : ℚ) / ((10 : ℚ) ^ b.length))
    else none
  | _ => none

/-- Embeds `PleiadesIngestor._build_uncertainty`: accuracy values and
precision markers from the locations array, numeric kilometre radius from the
first parsable "meters" accuracy, review-state note. -/
def buildUncertainty (place : PlaceRecord) : Option ℚ × Option Str :=
  let accuracies := place.locations.filterMap (fun loc =>
    match loc.accuracy with
    | some a => if a ≠ [] then some a else none
    | none => none)
  let precNotes := place.locations.filterMap (fun loc =>
    match pyOrOptStr loc.location_precision loc.locationType with
    | some p => if p ≠ [] then some ("Location precision: ".data ++ p) else none
    | none => none)
  let notes1 :=
    if accuracies ≠ [] then
      precNotes ++ ["Accuracy values: ".data ++ joinWith ", ".data accuracies]
    else precNotes
  let uncertainty_km :=
    if accuracies ≠ [] then
      accuracies.findSome? (fun acc =>
        if containsSub "meters".data (lowerStr acc) then
          (parseFloatQ (acc.filter (fun c => ('0' ≤ c ∧ c ≤ '9') ∨ c = '.'))).map
            (fun q => q / 1000)
        else none)
    else none
  let notes2 :=
    match place.review_state with
    | some rs =>
      if rs ≠ [] ∧ rs ≠ "published".data then notes1 ++ ["Review state: ".data ++ rs]
      else notes1
    | none => notes1
  (uncertainty_km, if notes2 ≠ [] then some (joinWith "; ".data notes2) else none)

/-- Embeds `PleiadesIngestor._build_boundary`: a rectangle polygon from the
bbox, only for area locations; the polygon is modelled by its coordinate
ring. -/
def buildBoundary (place : PlaceRecord) (location_type : Str) : Option (List (ℚ × ℚ)) :=
  if location_type ≠ "area".data then none
  else
    match place.bbox with
    | some bbox =>
      match bbox with
      | [minLon, minLat, maxLon, maxLat] =>
        some [(minLon, minLat), (maxLon, minLat), (maxLon, maxLat),
              (minLon, maxLat), (minLon, minLat)]
      | _ => none
    | none => none

/-- Embeds `PleiadesIngestor._build_terrain_notes`. -/
def buildTerrainNotes (place_types : List Str) : Option Str :=
  if place_types.isEmpty then none
  else some ("Pleiades place types: ".data ++ joinWith ", ".data place_types)

/-- Embeds `PleiadesIngestor._build_description`. -/
def buildDescription (place : PlaceRecord) (pleiades_id : Str) : Option Str :=
  let parts : List Str := []
  let parts := if stripStr place.description ≠ [] then parts ++ [stripStr place.description] else parts
  let parts :=
    if place.connectsWith ≠ [] then
      parts ++ ["Connected to ".data ++ natDigits place.connectsWith.length
        ++ " other places".data]
    else parts
  let parts :=
    if place.referencesCount ≠ 0 then
      parts ++ ["Citations: ".data ++ natDigits place.referencesCount
        ++ " reference(s)".data]
    else parts
  let parts :=
    if pleiades_id ≠ [] then
      parts ++ ["Source: https://pleiades.stoa.org/places/".data ++ pleiades_id]
    else parts
  if parts ≠ [] then some (joinWith "\n\n".data parts) else none

/-- Keyword containment over the joined lower-cased type string: models
`any(x in types_str for x in [...])`. -/
def anyKw (kws : List String) (types_str : Str) : Bool :=
  kws.any (fun k => containsSub k.data types_str)

/-- Embeds `PleiadesIngestor._map_place_types`: the full ordered keyword
cascade from the source, defaulting to point with the first raw type. -/
def mapPlaceTypes (place_types : List Str) : Str × Option Str :=
  if place_types.isEmpty then ("point".data, none)
  else
    let types_str := joinWith " ".data (place_types.map lowerStr)
    if anyKw ["region", "province", "territory", "country", "diocese"] types_str then
      ("area".data, some "region".data)
    else if anyKw ["island", "peninsula"] types_str then
      ("area".data, some "landform".data)
    else if anyKw ["bay", "gulf", "strait", "sea", "ocean"] types_str then
      ("area".data, some "water".data)
    else if anyKw ["road", "via", "wall", "aqueduct", "canal"] types_str then
      ("linear".data, place_types.head?)
    else if containsSub "river".data types_str then
      ("linear".data, some "river".data)
    else if anyKw ["settlement", "urban", "city", "town", "village", "polis"] types_str then
      ("point".data, some "settlement".data)
    else if anyKw ["temple", "sanctuary", "shrine", "church"] types_str then
      ("point".data, some "religious".data)
    else if anyKw ["fort", "fortress", "military", "camp", "castrum"] types_str then
      ("point".data, some "military".data)
    else if anyKw ["port", "harbor", "harbour"] types_str then
      ("point".data, some "port".data)
    else if anyKw ["mine", "quarry"] types_str then
      ("point".data, some "resource".data)
    else if anyKw ["bath", "theater", "theatre", "stadium", "arena", "amphitheater"] types_str then
      ("point".data, some "civic".data)
    else if anyKw ["cemetery", "tomb", "necropolis", "tumulus"] types_str then
      ("point".data, some "funerary".data)
    else if anyKw ["mountain", "peak", "hill", "volcano", "mons"] types_str then
      ("point".data, some "mountain".data)
    else if anyKw ["lake", "spring", "well", "fountain"] types_str then
      ("point".data, some "water".data)
    else if anyKw ["cape", "promontory"] types_str then
      ("point".data, some "landform".data)
    else
      ("point".data, place_types.head?)

/-- Embeds `PleiadesIngestor._map_connection_type`: five disjoint vocabulary
sets, unmatched types pass through with the "pleiades:" namespace. -/
def mapConnectionType (pleiades_type : Str) : Str :=
  let spatial_types : List String :=
    ["at", "on", "near", "in", "bounds", "abuts", "crosses", "intersects",
     "part_of_physical", "part_of_regional", "part_of_admin", "part_of_analytical",
     "north_of", "south_of", "east_of", "west_of",
     "northeast_of", "northwest_of", "southeast_of", "southwest_of",
     "in_territory_of", "port_of"]
  let temporal_types : List String := ["succeeds", "founded", "relocated_to", "phase"]
  let route_types : List String :=
    ["route_next", "communicates", "flows_into", "flows_through"]
  let identity_types : List String :=
    ["same_as", "member", "sympoliteia", "isopoliteia", "dependent", "ally"]
  let administrative_types : List String := ["capital", "material_source"]
  let pt := lowerStr pleiades_type
  if spatial_types.any (fun x => x.data = pt) then "spatial:".data ++ pt
  else if temporal_types.any (fun x => x.data = pt) then "temporal:".data ++ pt
  else if route_types.any (fun x => x.data = pt) then "route:".data ++ pt
  else if identity_types.any (fun x => x.data = pt) then "identity:".data ++ pt
  else if administrative_types.any (fun x => x.data = pt) then "admin:".data ++ pt
  else "pleiades:".data ++ pt

/-- Embeds `PleiadesIngestor._map_certainty_to_confidence`: the four-tier
lookup with default 0.75. -/
def mapCertaintyToConfidence (certainty : Str) : ℚ :=
  let c := lowerStr certainty
  if c = "certain".data then 0.95
  else if c = "confident".data then 0.85
  else if c = "less-certain".data then 0.65
  else if c = "uncertain".data then 0.45
  else 0.75

/-- Embeds `PleiadesIngestor._extract_pleiades_id`. -/
def extractPleiadesId (url : Str) : Option Str :=
  if url = [] then none
  else if containsSub "pleiades.stoa.org/places/".data url then
    some ((splitOnSub "/".data ((splitOnSub "/places/".data url).getLastD [])).headD [])
  else if pyIsDigit url then some url
  else none

/-- Renders `start or '?'` in the period note (Python treats the year 0 as
falsy, so it also prints "?"). -/
def pyYearOrQm : Option Int → Str
  | some v => if v = 0 then "?".data else intToStr v
  | none => "?".data

/-- Embeds `PleiadesIngestor._build_connection_notes`. -/
def buildConnectionNotes (conn : PConnPayload) : Option Str :=
  let parts : List Str := []
  let parts := if conn.title ≠ [] then parts ++ ["Connected to: ".data ++ conn.title] else parts
  let parts :=
    if conn.startYear ≠ none ∨ conn.endYear ≠ none then
      parts ++ ["Period: ".data ++ pyYearOrQm conn.startYear ++ " - ".data
        ++ pyYearOrQm conn.endYear]
    else parts
  let periods := conn.attestations.filterMap (fun att =>
    match att.timePeriod with
    | some tp => if tpTruthy tp then some (tpTitle tp) else none
    | none => none)
  let parts :=
    if periods ≠ [] then parts ++ ["Attested: ".data ++ joinWith ", ".data periods]
    else parts
  let parts :=
    match conn.uri with
    | some u => if u ≠ [] then parts ++ ["Source: ".data ++ u] else parts
    | none => parts
  if parts ≠ [] then some (joinWith "; ".data parts) else none

/-- Mutable state of a `PleiadesIngestor` run: the store and statistics plus
the pleiades-id → location-id cache and the pending-connection queue. -/
structure PleiadesState where
  store : Store
  stats : Stats
  cache : List (Str × Nat)
  pending : List (Str × PConnPayload)
deriving DecidableEq

/-- Freshly constructed ingestor over an empty store. -/
def initPleiadesState : PleiadesState := ⟨emptyStore, initStats, [], []⟩

/-- Parameter names accepted by `BaseIngestor.create_location`, read off its
signature in base.py. -/
def createLocationParams : List Str :=
  (["name_modern", "name_historical", "location_type", "location_subtype",
    "longitude", "latitude", "uncertainty_radius_km", "description",
    "external_id"] : List String).map (fun s => s.data)

/-- Keyword-argument names passed at the `self.create_location(...)` call
site inside `PleiadesIngestor._process_place`, read off that call. -/
def processPlaceCallKwargs : List Str :=
  (["name_modern", "name_historical", "location_type", "location_subtype",
    "longitude", "latitude", "uncertainty_radius_km", "uncertainty_notes",
    "boundary_geojson", "location_changes", "terrain_notes", "description",
    "external_id"] : List String).map (fun s => s.data)

/-- Python keyword-call semantics: the call raises `TypeError` unless every
passed keyword names an accepted parameter. -/
def kwargsAccepted (passed accepted : List Str) : Bool :=
  passed.all (fun p => accepted.contains p)

set_option linter.unusedVariables false in
/-- Embeds `PleiadesIngestor._process_place`.  The Bool result records
whether the body raised (`true` models the `TypeError` produced when the
keyword arguments of the `create_location` call are checked against the
method's parameters); state changes made before the raise are kept, as in
Python.  All argument expressions are evaluated before the call is checked,
exactly as Python evaluates them. -/
def processPlace (s : PleiadesState) (place : PlaceRecord) : PleiadesState × Bool :=
  let pleiades_id := place.pid
  let title := stripStr place.title
  if title = [] then
    ({ s with stats := { s.stats with locations_skipped := s.stats.locations_skipped + 1 } },
     false)
  else
    let latlon := getCoordinates place
    let tysub := mapPlaceTypes place.placeTypes
    let historical_names := buildHistoricalNames place pleiades_id
    let location_changes := parseLocationChanges place
    let unc := buildUncertainty place
    let boundary_geojson := buildBoundary place tysub.1
    let terrain_notes := buildTerrainNotes place.placeTypes
    let descr := buildDescription place pleiades_id
    if kwargsAccepted processPlaceCallKwargs createLocationParams then
      let res := createLocation s.store s.stats (some title) (some historical_names)
        tysub.1 tysub.2 latlon.2 latlon.1 unc.1 descr
        (some ("pleiades:".data ++ pleiades_id))
      let s1 : PleiadesState := { s with store := res.2.1, stats := res.2.2 }
      let s2 :=
        match res.1 with
        | some uuid =>
          if pleiades_id ≠ [] then { s1 with cache := s1.cache ++ [(pleiades_id, uuid)] }
          else s1
        | none => s1
      ({ s2 with pending := s2.pending ++ place.connections.map (fun c => (pleiades_id, c)) },
       false)
    else
      (s, true)

/-- Models `dict.get` on the pleiades-id → location-id cache. -/
def cacheGet (cache : List (Str × Nat)) (k : Str) : Option Nat :=
  (cache.find? (fun p => decide (p.1 = k))).map (fun p => p.2)

/-- Accumulator of the edge pass: store, statistics and the three local
counters the pass logs. -/
structure ConnAcc where
  store : Store
  stats : Stats
  success : Nat
  missing : Nat
  errored : Nat
deriving DecidableEq

/-- Embeds one iteration of the edge loop in
`PleiadesIngestor._process_connections`: resolve the "from" id through the
cache, extract and resolve the "to" id, map type and certainty, build notes,
create the connection.  Store inserts are total in the model, so the
per-edge exception handler (`skipped_error`) is never taken. -/
def processOneConnection (cache : List (Str × Nat)) (acc : ConnAcc)
    (edge : Str × PConnPayload) : ConnAcc :=
  let from_pleiades_id := edge.1
  let conn := edge.2
  match cacheGet cache from_pleiades_id with
  | none => { acc with missing := acc.missing + 1 }
  | some from_uuid =>
    match extractPleiadesId conn.connectsTo with
    | none => { acc with missing := acc.missing + 1 }
    | some to_pleiades_id =>
      if to_pleiades_id = [] then { acc with missing := acc.missing + 1 }
      else
        match cacheGet cache to_pleiades_id with
        | none => { acc with missing := acc.missing + 1 }
        | some to_uuid =>
          let connection_type := mapConnectionType (conn.connectionType.getD "connection".data)
          let certainty := conn.associationCertainty.getD "certain".data
          let confidence := mapCertaintyToConfidence certainty
          let notes := buildConnectionNotes conn
          let res := createConnection acc.store acc.stats "location".data from_uuid
            "location".data to_uuid connection_type confidence notes
          { acc with store := res.2.1, stats := res.2.2, success := acc.success + 1 }

/-- Embeds `PleiadesIngestor._process_connections` (the edge pass): a fold of
`processOneConnection` over the pending queue; besides the updated state it
returns the logged (created, skipped-missing, skipped-error) counts. -/
def processConnections (s : PleiadesState) : PleiadesState × Nat × Nat × Nat :=
  let acc := s.pending.foldl (processOneConnection s.cache) ⟨s.store, s.stats, 0, 0, 0⟩
  ({ s with store := acc.store, stats := acc.stats }, acc.success, acc.missing, acc.errored)

/-- Embeds the driver loop of `PleiadesIngestor.ingest` once the input file is
parsed into place records: the truthiness-guarded limit truncation, the node
pass with its per-place exception handler (`log_error` on a raise), then the
edge pass guarded by `skip_connections` and a non-empty pending queue.
Returns the final state and, when the edge pass ran, its logged counts. -/
def pleiadesRun (places : List PlaceRecord) (limit : Option Nat)
    (skip_connections : Bool) : PleiadesState × Option (Nat × Nat × Nat) :=
  let placesTrunc :=
    match limit with
    | some n => if n ≠ 0 then places.take n else places
    | none => places
  let s1 := placesTrunc.foldl (fun st place =>
    match processPlace st place with
    | (st1, false) => st1
    | (st1, true) => { st1 with stats := logError st1.stats }) initPleiadesState
  if ¬ skip_connections ∧ ¬ s1.pending.isEmpty then
    let r := processConnections s1
    (r.1, some r.2)
  else
    (s1, none)

/-! ## Supporting lemmas -/

theorem digCh_bounds (k : Nat) : '0' ≤ digCh k ∧ digCh k ≤ '9' := by
  unfold digCh
  split <;> decide

theorem digVal_digCh {k : Nat} (h : k < 10) : digVal (digCh k) = k := by
  interval_cases k <;> decide

theorem parseNat_append_last (xs : Str) (c : Char) :
    parseNat (xs ++ [c]) = 10 * parseNat xs + digVal c := by
  simp [parseNat, List.foldl_append]

theorem natDigitsFuel_parse (fuel : Nat) :
    ∀ n : Nat, n < fuel → parseNat (natDigitsFuel fuel n) = n := by
  induction fuel with
  | zero => intro n h; omega
  | succ f ih =>
    intro n h
    unfold natDigitsFuel
    by_cases hn : n < 10
    · simp [hn, parseNat, digVal_digCh hn]
    · have hdiv : n / 10 < n := Nat.div_lt_self (by omega) (by omega)
      rw [if_neg hn, parseNat_append_last, ih (n / 10) (by omega),
        digVal_digCh (Nat.mod_lt n (by omega))]
      omega

theorem parseNat_natDigits (n : Nat) : parseNat (natDigits n) = n :=
  natDigitsFuel_parse (n + 1) n (by omega)

theorem parseNat_replicate_zero (k : Nat) (s : Str) :
    parseNat (List.replicate k '0' ++ s) = parseNat s := by
  induction k with
  | zero => simp
  | succ j ih =>
    have : List.replicate (j + 1) '0' ++ s = '0' :: (List.replicate j '0' ++ s) := by
      simp [List.replicate_succ]
    rw [this]
    simpa [parseNat, digVal] using ih

theorem parseNat_padNat (w n : Nat) : parseNat (padNat w n) = n := by
  unfold padNat
  rw [parseNat_replicate_zero, parseNat_natDigits]

theorem natDigitsFuel_chars (fuel : Nat) :
    ∀ (n : Nat), ∀ c ∈ natDigitsFuel fuel n, '0' ≤ c ∧ c ≤ '9' := by
  induction fuel with
  | zero => intro n c hc; simp [natDigitsFuel] at hc
  | succ f ih =>
    intro n c hc
    unfold natDigitsFuel at hc
    by_cases hn : n < 10
    · simp [hn] at hc
      simpa [hc] using digCh_bounds n
    · rw [if_neg hn] at hc
      rcases List.mem_append.mp hc with h | h
      · exact ih (n / 10) c h
      · simp at h
        simpa [h] using digCh_bounds (n % 10)

theorem padNat_chars (w n : Nat) : ∀ c ∈ padNat w n, '0' ≤ c ∧ c ≤ '9' := by
  intro c hc
  unfold padNat at hc
  rcases List.mem_append.mp hc with h | h
  · have := List.eq_of_mem_replicate h
    simp [this]
  · exact natDigitsFuel_chars (n + 1) n c h

theorem pyEndsWith_append (x pat : Str) : pyEndsWith (x ++ pat) pat = true := by
  have hlen : (x ++ pat).length - pat.length = x.length := by
    simp [List.length_append]
  simp [pyEndsWith, hlen]

theorem isPre_append_self (a b : Str) : isPre a (a ++ b) = true := by
  induction a with
  | nil => rfl
  | cons c t ih => simp [isPre, ih]

theorem isPre_cons_ne {p c : Char} (pt ct : Str) (h : p ≠ c) :
    isPre (p :: pt) (c :: ct) = false := by
  simp [isPre, h]

theorem dropPre_self (a : Str) : ∀ b, dropPre a (a ++ b) = b := by
  induction a with
  | nil => intro b; rfl
  | cons c t ih => intro b; simpa [dropPre] using ih b

theorem replaceFuel_strip (p : Char) (pt : Str) :
    ∀ (s : Str) (fuel : Nat), (∀ c ∈ s, c ≠ p) → s.length + 1 ≤ fuel →
      replaceFuel (p :: pt) [] fuel (s ++ p :: pt) = s := by
  intro s
  induction s with
  | nil =>
    intro fuel _ hfuel
    cases fuel with
    | zero => omega
    | succ f =>
      show replaceFuel (p :: pt) [] (f + 1) (p :: pt) = []
      unfold replaceFuel
      rw [if_pos ⟨by simpa using isPre_append_self (p :: pt) [], by simp⟩]
      have hd : dropPre (p :: pt) (p :: pt) = [] := by
        simpa using dropPre_self (p :: pt) []
      rw [hd]
      cases f <;> rfl
  | cons c t ih =>
    intro fuel hs hfuel
    cases fuel with
    | zero => omega
    | succ f =>
      show replaceFuel (p :: pt) [] (f + 1) (c :: (t ++ p :: pt)) = c :: t
      unfold replaceFuel
      have hne : p ≠ c := fun h => (hs c (by simp)) h.symm
      rw [if_neg (by simp [isPre_cons_ne _ _ hne])]
      have ht : ∀ x ∈ t, x ≠ p := fun x hx => hs x (by simp [hx])
      have hf : t.length + 1 ≤ f := by
        simp only [List.length_cons] at hfuel; omega
      rw [ih f ht hf]

theorem replaceSub_strip (p : Char) (pt s : Str) (hs : ∀ c ∈ s, c ≠ p) :
    replaceSub (p :: pt) [] (s ++ p :: pt) = s := by
  unfold replaceSub
  exact replaceFuel_strip p pt s _ hs (by simp only [List.length_append, List.length_cons]; omega)

theorem splitFuel_ne_nil (sep : Str) (fuel : Nat) (s : Str) :
    splitFuel sep fuel s ≠ [] := by
  cases fuel with
  | zero => cases s <;> simp [splitFuel]
  | succ f =>
    cases s with
    | nil => simp [splitFuel]
    | cons c rest =>
      unfold splitFuel
      split
      · simp
      · split <;> simp

theorem splitFuel_head (x : Char) :
    ∀ (a : Str) (fuel : Nat) (rest : Str), (∀ c ∈ a, c ≠ x) →
      a.length + 1 ≤ fuel →
      (splitFuel [x] fuel (a ++ x :: rest)).headD [] = a := by
  intro a
  induction a with
  | nil =>
    intro fuel rest _ hfuel
    cases fuel with
    | zero => omega
    | succ f =>
      show (splitFuel [x] (f + 1) (x :: rest)).headD [] = []
      unfold splitFuel
      rw [if_pos ⟨by simp [isPre], by simp⟩]
      rfl
  | cons c t ih =>
    intro fuel rest hs hfuel
    cases fuel with
    | zero => omega
    | succ f =>
      show (splitFuel [x] (f + 1) (c :: (t ++ x :: rest))).headD [] = c :: t
      unfold splitFuel
      have hne : x ≠ c := fun h => (hs c (by simp)) h.symm
      rw [if_neg (by simp [isPre_cons_ne _ _ hne])]
      have hf : t.length + 1 ≤ f := by
        simp only [List.length_cons] at hfuel; omega
      have ht : ∀ y ∈ t, y ≠ x := fun y hy => hs y (by simp [hy])
      have hrec := ih f rest ht hf
      rcases hx : splitFuel [x] f (t ++ x :: rest) with _ | ⟨h, tl⟩
      · exact absurd hx (splitFuel_ne_nil [x] f (t ++ x :: rest))
      · rw [hx] at hrec
        simpa using hrec

theorem find?_append_of_none {α : Type} {p : α → Bool} {l₁ : List α} (l₂ : List α)
    (h : l₁.find? p = none) : (l₁ ++ l₂).find? p = l₂.find? p := by
  induction l₁ with
  | nil => simp
  | cons a t ih =>
    cases hpa : p a with
    | true => rw [List.find?_cons_of_pos _ hpa] at h; exact absurd h (by simp)
    | false =>
      rw [List.find?_cons_of_neg _ (by simp [hpa])] at h
      rw [List.cons_append, List.find?_cons_of_neg _ (by simp [hpa])]
      exact ih h

/-- Historical-name list actually stored by `createLocation` when a non-empty
external id is supplied (the append-if-absent step of the source). -/
def insertedHist (hist : Option (List NameEntry)) (e : Str) : List NameEntry :=
  if NameEntry.raw e ∈ pyOrNilList hist then pyOrNilList hist
  else pyOrNilList hist ++ [NameEntry.raw e]

theorem mem_insertedHist (hist : Option (List NameEntry)) (e : Str) :
    NameEntry.raw e ∈ insertedHist hist e := by
  unfold insertedHist
  split
  · assumption
  · simp

/-- Alias list actually stored by `createActor` when a non-empty external id
is supplied. -/
def insertedAliases (al : Option (List Str)) (e : Str) : List Str :=
  if e ∈ pyOrNilList al then pyOrNilList al else pyOrNilList al ++ [e]

theorem mem_insertedAliases (al : Option (List Str)) (e : Str) :
    e ∈ insertedAliases al e := by
  unfold insertedAliases
  split
  · assumption
  · simp

theorem extLocLookup_none (st : Store) {e : Str} (he : e ≠ [])
    (h : st.locations.find? (fun r => decide (NameEntry.raw e ∈ r.name_historical)) = none) :
    extLocLookup st (some e) = none := by
  simp [extLocLookup, he, h]

theorem extLocLookup_hit (st : Store) {e : Str} {r : LocationRow} (he : e ≠ [])
    (h : st.locations.find? (fun r => decide (NameEntry.raw e ∈ r.name_historical)) = some r) :
    extLocLookup st (some e) = some r.id := by
  simp [extLocLookup, he, h]

theorem createLocation_insert (st : Store) (stats : Stats) (nm : Str)
    (hist : Option (List NameEntry)) (lt : Str) (lst : Option Str)
    (lon lat ur : Option ℚ) (de : Option Str) (e : Str)
    (hnm : nm ≠ []) (he : e ≠ [])
    (hfresh : st.locations.find? (fun r => decide (NameEntry.raw e ∈ r.name_historical)) = none) :
    createLocation st stats (some nm) hist lt lst lon lat ur de (some e)
      = (some st.nextId,
         { st with
           locations := st.locations ++
             [⟨st.nextId, some nm, insertedHist hist e, lt, lst, lon, lat, ur, de⟩],
           nextId := st.nextId + 1 },
         { stats with locations_created := stats.locations_created + 1 }) := by
  unfold createLocation
  rw [if_neg (by simp [optStrTruthy, hnm]), extLocLookup_none st he hfresh]
  have harr : (if e ≠ [] ∧ NameEntry.raw e ∉ pyOrNilList hist then
      pyOrNilList hist ++ [NameEntry.raw e] else pyOrNilList hist) = insertedHist hist e := by
    unfold insertedHist
    by_cases hmem : NameEntry.raw e ∈ pyOrNilList hist
    · rw [if_neg (by simp [hmem]), if_pos hmem]
    · rw [if_pos ⟨he, hmem⟩, if_neg hmem]
  simp only [harr]

theorem createLocation_hit (st : Store) (stats : Stats) (nm : Str)
    (hist : Option (List NameEntry)) (lt : Str) (lst : Option Str)
    (lon lat ur : Option ℚ) (de : Option Str) (e : Str) (r : LocationRow)
    (hnm : nm ≠ []) (he : e ≠ [])
    (hfind : st.locations.find? (fun r => decide (NameEntry.raw e ∈ r.name_historical)) = some r) :
    createLocation st stats (some nm) hist lt lst lon lat ur de (some e)
      = (some r.id, st, { stats with locations_skipped := stats.locations_skipped + 1 }) := by
  unfold createLocation
  rw [if_neg (by simp [optStrTruthy, hnm]), extLocLookup_hit st he hfind]

theorem extActorLookup_none (st : Store) {e : Str} (he : e ≠ [])
    (h : st.actors.find? (fun r => decide (e ∈ r.name_aliases)) = none) :
    extActorLookup st (some e) = none := by
  simp [extActorLookup, he, h]

theorem extActorLookup_hit (st : Store) {e : Str} {r : ActorRow} (he : e ≠ [])
    (h : st.actors.find? (fun r => decide (e ∈ r.name_aliases)) = some r) :
    extActorLookup st (some e) = some r.id := by
  simp [extActorLookup, he, h]

theorem createActor_insert (st : Store) (stats : Stats) (nprim : Str)
    (atype : Str) (ast : Option Str) (al : Option (List Str))
    (rte de kb : Option Str) (e : Str)
    (hlen : 2 ≤ nprim.length) (he : e ≠ [])
    (hfreshE : st.actors.find? (fun r => decide (e ∈ r.name_aliases)) = none)
    (hfreshN : st.actors.find? (fun r => decide (r.name_primary = nprim)) = none) :
    createActor st stats nprim atype ast al rte de kb (some e)
      = (some st.nextId,
         { st with
           actors := st.actors ++
             [⟨st.nextId, nprim, insertedAliases al e, atype, ast, rte, de, kb⟩],
           nextId := st.nextId + 1 },
         { stats with actors_created := stats.actors_created + 1 }) := by
  unfold createActor
  have hval : ¬ (nprim = [] ∨ nprim.length < 2) := by
    rintro (h | h)
    · simp [h] at hlen
    · omega
  rw [if_neg hval, extActorLookup_none st he hfreshE, hfreshN]
  have harr : (if e ≠ [] ∧ e ∉ pyOrNilList al then
      pyOrNilList al ++ [e] else pyOrNilList al) = insertedAliases al e := by
    unfold insertedAliases
    by_cases hmem : e ∈ pyOrNilList al
    · rw [if_neg (by simp [hmem]), if_pos hmem]
    · rw [if_pos ⟨he, hmem⟩, if_neg hmem]
  simp only [harr]

theorem createActor_hitExt (st : Store) (stats : Stats) (nprim : Str)
    (atype : Str) (ast : Option Str) (al : Option (List Str))
    (rte de kb : Option Str) (e : Str) (r : ActorRow)
    (hlen : 2 ≤ nprim.length) (he : e ≠ [])
    (hfind : st.actors.find? (fun r => decide (e ∈ r.name_aliases)) = some r) :
    createActor st stats nprim atype ast al rte de kb (some e)
      = (some r.id, st, { stats with actors_skipped := stats.actors_skipped + 1 }) := by
  unfold createActor
  have hval : ¬ (nprim = [] ∨ nprim.length < 2) := by
    rintro (h | h)
    · simp [h] at hlen
    · omega
  rw [if_neg hval, extActorLookup_hit st he hfind]

/-! ## Claim theorems -/

/-- C3: for every field bundle carrying a (non-empty) external identifier,
calling the Location (resp. Actor) creation operation twice in sequence over
a store with no prior match returns the same canonical id both times,
increments the created counter exactly once (on the first call), increments
the skipped counter exactly once (on the second call), and the second call
performs no insert (the store is unchanged). -/
theorem c3_idempotent_external_id :
    (∀ (st : Store) (stats : Stats) (nm : Str) (hist : Option (List NameEntry))
      (lt : Str) (lst : Option Str) (lon lat ur : Option ℚ) (de : Option Str) (e : Str),
      nm ≠ [] → e ≠ [] →
      st.locations.find? (fun r => decide (NameEntry.raw e ∈ r.name_historical)) = none →
      ∃ id1 id2 st1 stats1 st2 stats2,
        createLocation st stats (some nm) hist lt lst lon lat ur de (some e)
          = (some id1, st1, stats1)
        ∧ createLocation st1 stats1 (some nm) hist lt lst lon lat ur de (some e)
          = (some id2, st2, stats2)
        ∧ id2 = id1
        ∧ stats1.locations_created = stats.locations_created + 1
        ∧ stats2.locations_created = stats1.locations_created
        ∧ stats1.locations_skipped = stats.locations_skipped
        ∧ stats2.locations_skipped = stats1.locations_skipped + 1
        ∧ st2 = st1)
    ∧ (∀ (st : Store) (stats : Stats) (nprim : Str) (atype : Str) (ast : Option Str)
      (al : Option (List Str)) (rte de kb : Option Str) (e : Str),
      2 ≤ nprim.length → e ≠ [] →
      st.actors.find? (fun r => decide (e ∈ r.name_aliases)) = none →
      st.actors.find? (fun r => decide (r.name_primary = nprim)) = none →
      ∃ id1 id2 st1 stats1 st2 stats2,
        createActor st stats nprim atype ast al rte de kb (some e)
          = (some id1, st1, stats1)
        ∧ createActor st1 stats1 nprim atype ast al rte de kb (some e)
          = (some id2, st2, stats2)
        ∧ id2 = id1
        ∧ stats1.actors_created = stats.actors_created + 1
        ∧ stats2.actors_created = stats1.actors_created
        ∧ stats1.actors_skipped = stats.actors_skipped
        ∧ stats2.actors_skipped = stats1.actors_skipped + 1
        ∧ st2 = st1) := by
  constructor
  · intro st stats nm hist lt lst lon lat ur de e hnm he hfresh
    have h1 := createLocation_insert st stats nm hist lt lst lon lat ur de e hnm he hfresh
    have hfind2 : (st.locations ++
        [(⟨st.nextId, some nm, insertedHist hist e, lt, lst, lon, lat, ur, de⟩ : LocationRow)]).find?
        (fun r => decide (NameEntry.raw e ∈ r.name_historical))
        = some ⟨st.nextId, some nm, insertedHist hist e, lt, lst, lon, lat, ur, de⟩ := by
      rw [find?_append_of_none _ hfresh]
      exact List.find?_cons_of_pos _ (by simp [mem_insertedHist])
    have h2 := createLocation_hit
      { st with
        locations := st.locations ++
          [⟨st.nextId, some nm, insertedHist hist e, lt, lst, lon, lat, ur, de⟩],
        nextId := st.nextId + 1 }
      { stats with locations_created := stats.locations_created + 1 }
      nm hist lt lst lon lat ur de e
      ⟨st.nextId, some nm, insertedHist hist e, lt, lst, lon, lat, ur, de⟩
      hnm he hfind2
    exact ⟨st.nextId, st.nextId, _, _, _, _, h1, h2, rfl, rfl, rfl, rfl, rfl, rfl⟩
  · intro st stats nprim atype ast al rte de kb e hlen he hfreshE hfreshN
    have h1 := createActor_insert st stats nprim atype ast al rte de kb e hlen he hfreshE hfreshN
    have hfind2 : (st.actors ++
        [(⟨st.nextId, nprim, insertedAliases al e, atype, ast, rte, de, kb⟩ : ActorRow)]).find?
        (fun r => decide (e ∈ r.name_aliases))
        = some ⟨st.nextId, nprim, insertedAliases al e, atype, ast, rte, de, kb⟩ := by
      rw [find?_append_of_none _ hfreshE]
      exact List.find?_cons_of_pos _ (by simp [mem_insertedAliases])
    have h2 := createActor_hitExt
      { st with
        actors := st.actors ++
          [⟨st.nextId, nprim, insertedAliases al e, atype, ast, rte, de, kb⟩],
        nextId := st.nextId + 1 }
      { stats with actors_created := stats.actors_created + 1 }
      nprim atype ast al rte de kb e
      ⟨st.nextId, nprim, insertedAliases al e, atype, ast, rte, de, kb⟩
      hlen he hfind2
    exact ⟨st.nextId, st.nextId, _, _, _, _, h1, h2, rfl, rfl, rfl, rfl, rfl, rfl⟩

/-- Witness for C3 at a concrete input: the location part on an empty store
with name "Athens" and external id "pleiades:1", and the actor part with name
"Herodotus" and external id "perseus:h1". -/
theorem c3_idempotent_external_id_witness :
    (∃ id1 id2 st1 stats1 st2 stats2,
      createLocation emptyStore initStats (some "Athens".data) none "point".data none
          none none none none (some "pleiades:1".data)
        = (some id1, st1, stats1)
      ∧ createLocation st1 stats1 (some "Athens".data) none "point".data none
          none none none none (some "pleiades:1".data)
        = (some id2, st2, stats2)
      ∧ id2 = id1
      ∧ stats1.locations_created = initStats.locations_created + 1
      ∧ stats2.locations_created = stats1.locations_created
      ∧ stats1.locations_skipped = initStats.locations_skipped
      ∧ stats2.locations_skipped = stats1.locations_skipped + 1
      ∧ st2 = st1)
    ∧ (∃ id1 id2 st1 stats1 st2 stats2,
      createActor emptyStore initStats "Herodotus".data "person".data none none
          none none none (some "perseus:h1".data)
        = (some id1, st1, stats1)
      ∧ createActor st1 stats1 "Herodotus".data "person".data none none
          none none none (some "perseus:h1".data)
        = (some id2, st2, stats2)
      ∧ id2 = id1
      ∧ stats1.actors_created = initStats.actors_created + 1
      ∧ stats2.actors_created = stats1.actors_created
      ∧ stats1.actors_skipped = initStats.actors_skipped
      ∧ stats2.actors_skipped = stats1.actors_skipped + 1
      ∧ st2 = st1) :=
  ⟨c3_idempotent_external_id.1 emptyStore initStats "Athens".data none "point".data none
      none none none none "pleiades:1".data (by decide) (by decide) (by decide),
   c3_idempotent_external_id.2 emptyStore initStats "Herodotus".data "person".data none none
      none none none "perseus:h1".data (by decide) (by decide) (by decide) (by decide)⟩

/-- C9: whenever `create_location` (resp. `create_actor`) inserts a new row
and a non-empty external identifier was supplied, the stored historical-name
list (resp. alias list) of that row contains the external identifier, and the
external-id containment lookup on the updated store finds exactly that row's
id. -/
theorem c9_inserted_row_carries_external_id :
    (∀ (st : Store) (stats : Stats) (nm : Str) (hist : Option (List NameEntry))
      (lt : Str) (lst : Option Str) (lon lat ur : Option ℚ) (de : Option Str) (e : Str),
      nm ≠ [] → e ≠ [] →
      st.locations.find? (fun r => decide (NameEntry.raw e ∈ r.name_historical)) = none →
      ∃ row : LocationRow,
        (createLocation st stats (some nm) hist lt lst lon lat ur de (some e)).2.1.locations
          = st.locations ++ [row]
        ∧ NameEntry.raw e ∈ row.name_historical
        ∧ extLocLookup
            (createLocation st stats (some nm) hist lt lst lon lat ur de (some e)).2.1
            (some e) = some row.id)
    ∧ (∀ (st : Store) (stats : Stats) (nprim : Str) (atype : Str) (ast : Option Str)
      (al : Option (List Str)) (rte de kb : Option Str) (e : Str),
      2 ≤ nprim.length → e ≠ [] →
      st.actors.find? (fun r => decide (e ∈ r.name_aliases)) = none →
      st.actors.find? (fun r => decide (r.name_primary = nprim)) = none →
      ∃ row : ActorRow,
        (createActor st stats nprim atype ast al rte de kb (some e)).2.1.actors
          = st.actors ++ [row]
        ∧ e ∈ row.name_aliases
        ∧ extActorLookup
            (createActor st stats nprim atype ast al rte de kb (some e)).2.1
            (some e) = some row.id) := by
  constructor
  · intro st stats nm hist lt lst lon lat ur de e hnm he hfresh
    rw [createLocation_insert st stats nm hist lt lst lon lat ur de e hnm he hfresh]
    refine ⟨⟨st.nextId, some nm, insertedHist hist e, lt, lst, lon, lat, ur, de⟩,
      rfl, mem_insertedHist hist e, ?_⟩
    refine extLocLookup_hit _ he ?_
    show (st.locations ++ _).find? _ = _
    rw [find?_append_of_none _ hfresh]
    exact List.find?_cons_of_pos _ (by simp [mem_insertedHist])
  · intro st stats nprim atype ast al rte de kb e hlen he hfreshE hfreshN
    rw [createActor_insert st stats nprim atype ast al rte de kb e hlen he hfreshE hfreshN]
    refine ⟨⟨st.nextId, nprim, insertedAliases al e, atype, ast, rte, de, kb⟩,
      rfl, mem_insertedAliases al e, ?_⟩
    refine extActorLookup_hit _ he ?_
    show (st.actors ++ _).find? _ = _
    rw [find?_append_of_none _ hfreshE]
    exact List.find?_cons_of_pos _ (by simp [mem_insertedAliases])

/-- Witness for C9 at concrete inputs on the empty store. -/
theorem c9_inserted_row_carries_external_id_witness :
    (∃ row : LocationRow,
      (createLocation emptyStore initStats (some "Rome".data) none "point".data none
          none none none none (some "pleiades:2".data)).2.1.locations
        = emptyStore.locations ++ [row]
      ∧ NameEntry.raw "pleiades:2".data ∈ row.name_historical
      ∧ extLocLookup
          (createLocation emptyStore initStats (some "Rome".data) none "point".data none
            none none none none (some "pleiades:2".data)).2.1
          (some "pleiades:2".data) = some row.id)
    ∧ (∃ row : ActorRow,
      (createActor emptyStore initStats "Livy".data "person".data none none
          none none none (some "perseus:l1".data)).2.1.actors
        = emptyStore.actors ++ [row]
      ∧ "perseus:l1".data ∈ row.name_aliases
      ∧ extActorLookup
          (createActor emptyStore initStats "Livy".data "person".data none none
            none none none (some "perseus:l1".data)).2.1
          (some "perseus:l1".data) = some row.id) :=
  ⟨c9_inserted_row_carries_external_id.1 emptyStore initStats "Rome".data none
      "point".data none none none none none "pleiades:2".data
      (by decide) (by decide) (by decide),
   c9_inserted_row_carries_external_id.2 emptyStore initStats "Livy".data "person".data
      none none none none none "perseus:l1".data
      (by decide) (by decide) (by decide) (by decide)⟩

/-- C10: with an explicit frame, `create_placement` increments the
placements-created counter and returns an id exactly when the
conflict-ignoring insert actually inserts; an absorbed duplicate returns the
skip outcome and leaves the statistics record entirely unchanged. -/
theorem c10_placement_created_only_on_insert :
    (∀ (st : Store) (stats : Stats) (df : Option Str) (fid : Nat) (f : Str)
      (ds de : Option Str) (prec : Str) (conf : ℚ) (reas : Option Str) (ptype : Str),
      f ≠ [] →
      placementConflict st fid f = true →
      createPlacement st stats df fid (some f) ds de prec conf reas ptype
        = (none, st, stats))
    ∧ (∀ (st : Store) (stats : Stats) (df : Option Str) (fid : Nat) (f : Str)
      (ds de : Option Str) (prec : Str) (conf : ℚ) (reas : Option Str) (ptype : Str),
      f ≠ [] →
      placementConflict st fid f = false →
      createPlacement st stats df fid (some f) ds de prec conf reas ptype
        = (some st.nextId,
           { st with
             placements := st.placements ++ [⟨fid, f, ds, de, prec, conf, reas, ptype⟩],
             nextId := st.nextId + 1 },
           { stats with placements_created := stats.placements_created + 1 })) := by
  constructor
  · intro st stats df fid f ds de prec conf reas ptype hf hconf
    simp [createPlacement, hf, hconf]
  · intro st stats df fid f ds de prec conf reas ptype hf hconf
    simp [createPlacement, hf, hconf]

/-- Witness for C10: a store already holding the (factoid 3, frame "f1")
placement absorbs the duplicate, and the fresh empty store inserts. -/
theorem c10_placement_created_only_on_insert_witness :
    createPlacement
        { emptyStore with
          placements := [⟨3, "f1".data, none, none, "year".data, (4/5 : ℚ), none, "system".data⟩] }
        initStats none 3 (some "f1".data) none none "year".data (4/5 : ℚ) none "system".data
      = (none,
         { emptyStore with
           placements := [⟨3, "f1".data, none, none, "year".data, (4/5 : ℚ), none, "system".data⟩] },
         initStats)
    ∧ createPlacement emptyStore initStats none 3 (some "f1".data) none none "year".data
        (4/5 : ℚ) none "system".data
      = (some emptyStore.nextId,
         { emptyStore with
           placements := emptyStore.placements ++
             [⟨3, "f1".data, none, none, "year".data, (4/5 : ℚ), none, "system".data⟩],
           nextId := emptyStore.nextId + 1 },
         { initStats with placements_created := initStats.placements_created + 1 }) :=
  ⟨c10_placement_created_only_on_insert.1
      { emptyStore with
        placements := [⟨3, "f1".data, none, none, "year".data, (4/5 : ℚ), none, "system".data⟩] }
      initStats none 3 "f1".data none none "year".data (4/5 : ℚ) none "system".data
      (by decide) (by decide),
   c10_placement_created_only_on_insert.2 emptyStore initStats none 3 "f1".data
      none none "year".data (4/5 : ℚ) none "system".data (by decide) (by decide)⟩

/-- C2 fails on the code: with no explicit frame id and no default frame,
`str(None)` is the truthy four-character string "None", so the guarded skip
branch is unreachable and a store insert IS attempted — the placement row is
inserted with the literal frame id "None" and the created counter advances,
where the claim requires a logged skip with no insert attempt. -/
theorem c2_no_default_frame_still_inserts :
    createPlacement emptyStore initStats none 7 none none none "year".data
        (4/5 : ℚ) none "system".data
      = (some 1,
         { emptyStore with
           placements := [⟨7, "None".data, none, none, "year".data, (4/5 : ℚ), none, "system".data⟩],
           nextId := 2 },
         { initStats with placements_created := 1 }) := rfl

/-- C7: a factoid description of exactly 9 characters is rejected (skip, no
insert) and one of exactly 10 characters is inserted; an actor primary name
of exactly 1 character is rejected (skip, no insert) and one of exactly 2
characters always yields an id. -/
theorem c7_validation_boundaries :
    (∀ (st : Store) (stats : Stats) (description ftype layer : Str)
      (ro rot summ : Option Str) (status : Str),
      description.length = 9 →
      createFactoid st stats description ftype layer ro rot summ status
        = (none, st, { stats with factoids_skipped := stats.factoids_skipped + 1 }))
    ∧ (∀ (st : Store) (stats : Stats) (description ftype layer : Str)
      (ro rot summ : Option Str) (status : Str),
      description.length = 10 →
      createFactoid st stats description ftype layer ro rot summ status
        = (some st.nextId,
           { st with
             factoids := st.factoids ++
               [⟨st.nextId, description, summ, ftype, layer, ro, rot, status⟩],
             nextId := st.nextId + 1 },
           { stats with factoids_created := stats.factoids_created + 1 }))
    ∧ (∀ (st : Store) (stats : Stats) (nprim atype : Str) (ast : Option Str)
      (al : Option (List Str)) (rte de kb : Option Str) (ext : Option Str),
      nprim.length = 1 →
      createActor st stats nprim atype ast al rte de kb ext
        = (none, st, { stats with actors_skipped := stats.actors_skipped + 1 }))
    ∧ (∀ (st : Store) (stats : Stats) (nprim atype : Str) (ast : Option Str)
      (al : Option (List Str)) (rte de kb : Option Str) (ext : Option Str),
      nprim.length = 2 →
      (createActor st stats nprim atype ast al rte de kb ext).1.isSome = true) := by
  refine ⟨?_, ?_, ?_, ?_⟩
  · intro st stats description ftype layer ro rot summ status h
    unfold createFactoid
    rw [if_pos (Or.inr (by omega))]
  · intro st stats description ftype layer ro rot summ status h
    unfold createFactoid
    rw [if_neg (by
      rintro (h1 | h1)
      · rw [h1] at h; simp at h
      · omega)]
  · intro st stats nprim atype ast al rte de kb ext h
    unfold createActor
    rw [if_pos (Or.inr (by omega))]
  · intro st stats nprim atype ast al rte de kb ext h
    unfold createActor
    rw [if_neg (by
      rintro (h1 | h1)
      · rw [h1] at h; simp at h
      · omega)]
    rcases hE : extActorLookup st ext with _ | hit
    · rcases hN : st.actors.find? (fun r => decide (r.name_primary = nprim)) with _ | r
      · rw [hN]
        simp
      · rw [hN]
        simp
    · simp

/-- Witness for C7 at concrete 9/10-character descriptions and 1/2-character
names on the empty store. -/
theorem c7_validation_boundaries_witness :
    createFactoid emptyStore initStats "123456789".data "event".data "attested".data
        none none none "sourced".data
      = (none, emptyStore, { initStats with factoids_skipped := 1 })
    ∧ createFactoid emptyStore initStats "1234567890".data "event".data "attested".data
        none none none "sourced".data
      = (some emptyStore.nextId,
         { emptyStore with
           factoids := emptyStore.factoids ++
             [⟨emptyStore.nextId, "1234567890".data, none, "event".data, "attested".data,
               none, none, "sourced".data⟩],
           nextId := emptyStore.nextId + 1 },
         { initStats with factoids_created := initStats.factoids_created + 1 })
    ∧ createActor emptyStore initStats "H".data "person".data none none none none none none
      = (none, emptyStore, { initStats with actors_skipped := 1 })
    ∧ (createActor emptyStore initStats "Io".data "person".data none none none none
        none none).1.isSome = true := by
  refine ⟨?_, ?_, ?_, ?_⟩
  · exact c7_validation_boundaries.1 emptyStore initStats "123456789".data "event".data
      "attested".data none none none "sourced".data (by decide)
  · exact c7_validation_boundaries.2.1 emptyStore initStats "1234567890".data "event".data
      "attested".data none none none "sourced".data (by decide)
  · exact c7_validation_boundaries.2.2.1 emptyStore initStats "H".data "person".data
      none none none none none none (by decide)
  · exact c7_validation_boundaries.2.2.2 emptyStore initStats "Io".data "person".data
      none none none none none none (by decide)

/-- States that every keyword group of the place-type cascade misses the
joined lower-cased type string (the fifteen conditions of `mapPlaceTypes`,
negated, in source order). -/
abbrev noPlaceKeyword (types_str : Str) : Prop :=
  anyKw ["region", "province", "territory", "country", "diocese"] types_str = false
  ∧ anyKw ["island", "peninsula"] types_str = false
  ∧ anyKw ["bay", "gulf", "strait", "sea", "ocean"] types_str = false
  ∧ anyKw ["road", "via", "wall", "aqueduct", "canal"] types_str = false
  ∧ containsSub "river".data types_str = false
  ∧ anyKw ["settlement", "urban", "city", "town", "village", "polis"] types_str = false
  ∧ anyKw ["temple", "sanctuary", "shrine", "church"] types_str = false
  ∧ anyKw ["fort", "fortress", "military", "camp", "castrum"] types_str = false
  ∧ anyKw ["port", "harbor", "harbour"] types_str = false
  ∧ anyKw ["mine", "quarry"] types_str = false
  ∧ anyKw ["bath", "theater", "theatre", "stadium", "arena", "amphitheater"] types_str = false
  ∧ anyKw ["cemetery", "tomb", "necropolis", "tumulus"] types_str = false
  ∧ anyKw ["mountain", "peak", "hill", "volcano", "mons"] types_str = false
  ∧ anyKw ["lake", "spring", "well", "fountain"] types_str = false
  ∧ anyKw ["cape", "promontory"] types_str = false

theorem ite_fst_or {c : Prop} [Decidable c] (a b : Str × Option Str)
    (P : Str → Prop) (ha : P a.1) (hb : P b.1) : P (if c then a else b).1 := by
  by_cases h : c
  · rw [if_pos h]; exact ha
  · rw [if_neg h]; exact hb

/-- C8: the place/feature-type mapper is total — the empty list maps to
(point, null); a non-empty list hitting no recognized keyword maps to point
with the first raw type string as subtype; and every input yields one of the
three defined location kinds (never an error). -/
theorem c8_map_place_types_total :
    mapPlaceTypes [] = ("point".data, none)
    ∧ (∀ (t : Str) (rest : List Str),
      noPlaceKeyword (joinWith " ".data ((t :: rest).map lowerStr)) →
      mapPlaceTypes (t :: rest) = ("point".data, some t))
    ∧ (∀ ts : List Str,
      (mapPlaceTypes ts).1 = "point".data ∨ (mapPlaceTypes ts).1 = "area".data
      ∨ (mapPlaceTypes ts).1 = "linear".data) := by
  refine ⟨rfl, ?_, ?_⟩
  · intro t rest h
    obtain ⟨h1, h2, h3, h4, h5, h6, h7, h8, h9, h10, h11, h12, h13, h14, h15⟩ := h
    unfold mapPlaceTypes
    rw [if_neg (by simp)]
    simp only [h1, h2, h3, h4, h5, h6, h7, h8, h9, h10, h11, h12, h13, h14, h15]
    simp
  · intro ts
    cases ts with
    | nil => left; rfl
    | cons t rest =>
      unfold mapPlaceTypes
      rw [if_neg (by simp)]
      dsimp only
      repeat'
        apply ite_fst_or _ _
          (fun k => k = "point".data ∨ k = "area".data ∨ k = "linear".data)
      all_goals simp

/-- Witness for C8: the unrecognized type "zzz" maps to point with itself as
subtype, and a recognized type still lands in one of the three kinds. -/
theorem c8_map_place_types_total_witness :
    noPlaceKeyword (joinWith " ".data (["zzz".data].map lowerStr))
    ∧ mapPlaceTypes ["zzz".data] = ("point".data, some "zzz".data)
    ∧ ((mapPlaceTypes ["Urban Settlement".data]).1 = "point".data
      ∨ (mapPlaceTypes ["Urban Settlement".data]).1 = "area".data
      ∨ (mapPlaceTypes ["Urban Settlement".data]).1 = "linear".data) :=
  ⟨by decide, c8_map_place_types_total.2.1 "zzz".data [] (by decide),
   c8_map_place_types_total.2.2 ["Urban Settlement".data]⟩

/-- C6: in the edge pass, a pending edge whose "from" external id is absent
from the cache is never committed (store and created counter untouched) and
is counted under skipped-missing; a pending edge whose endpoints both resolve
through the cache is committed exactly once via the connection insert, with
confidence drawn from the certainty lookup ("certain" → 0.95, unrecognized
labels → 0.75). -/
theorem c6_edge_pass_resolution :
    (∀ (cache : List (Str × Nat)) (acc : ConnAcc) (fromPid : Str) (conn : PConnPayload),
      cacheGet cache fromPid = none →
      processOneConnection cache acc (fromPid, conn)
        = { acc with missing := acc.missing + 1 })
    ∧ (∀ (cache : List (Str × Nat)) (acc : ConnAcc) (fromPid : Str) (conn : PConnPayload)
      (fu : Nat) (tid : Str) (tu : Nat),
      cacheGet cache fromPid = some fu →
      extractPleiadesId conn.connectsTo = some tid →
      tid ≠ [] →
      cacheGet cache tid = some tu →
      processOneConnection cache acc (fromPid, conn)
        = { acc with
            store := { acc.store with
              connections := acc.store.connections ++
                [⟨"location".data, fu, "location".data, tu,
                  mapConnectionType (conn.connectionType.getD "connection".data),
                  mapCertaintyToConfidence (conn.associationCertainty.getD "certain".data),
                  buildConnectionNotes conn⟩],
              nextId := acc.store.nextId + 1 },
            stats := { acc.stats with
              connections_created := acc.stats.connections_created + 1 },
            success := acc.success + 1 })
    ∧ mapCertaintyToConfidence "certain".data = (0.95 : ℚ)
    ∧ (∀ certainty : Str,
      lowerStr certainty ≠ "certain".data →
      lowerStr certainty ≠ "confident".data →
      lowerStr certainty ≠ "less-certain".data →
      lowerStr certainty ≠ "uncertain".data →
      mapCertaintyToConfidence certainty = (0.75 : ℚ)) := by
  refine ⟨?_, ?_, rfl, ?_⟩
  · intro cache acc fromPid conn h
    simp [processOneConnection, h]
  · intro cache acc fromPid conn fu tid tu h1 h2 h3 h4
    simp [processOneConnection, h1, h2, h3, h4, createConnection]
  · intro certainty hn1 hn2 hn3 hn4
    simp [mapCertaintyToConfidence, hn1, hn2, hn3, hn4]

/-- Concrete edge payload used in the C6 witness: an edge to
"…/places/p2" carried with certainty "certain". -/
def c6Conn : PConnPayload :=
  { connectsTo := "https://pleiades.stoa.org/places/p2".data
    associationCertainty := some "certain".data }

/-- Witness for C6 on a concrete cache and edges: a "from" id absent from the
cache only bumps the missing counter; a fully resolved edge commits one
connection; and the label "Dubious" falls back to 0.75. -/
theorem c6_edge_pass_resolution_witness :
    processOneConnection [("p1".data, 1)] ⟨emptyStore, initStats, 0, 0, 0⟩ ("p0".data, {})
      = { (⟨emptyStore, initStats, 0, 0, 0⟩ : ConnAcc) with missing := 0 + 1 }
    ∧ processOneConnection [("p1".data, 1), ("p2".data, 2)]
        ⟨emptyStore, initStats, 0, 0, 0⟩ ("p1".data, c6Conn)
      = { (⟨emptyStore, initStats, 0, 0, 0⟩ : ConnAcc) with
          store := { emptyStore with
            connections := emptyStore.connections ++
              [⟨"location".data, 1, "location".data, 2,
                mapConnectionType (c6Conn.connectionType.getD "connection".data),
                mapCertaintyToConfidence (c6Conn.associationCertainty.getD "certain".data),
                buildConnectionNotes c6Conn⟩],
            nextId := emptyStore.nextId + 1 },
          stats := { initStats with connections_created := initStats.connections_created + 1 },
          success := 0 + 1 }
    ∧ mapCertaintyToConfidence "Dubious".data = (0.75 : ℚ) :=
  ⟨c6_edge_pass_resolution.1 [("p1".data, 1)] ⟨emptyStore, initStats, 0, 0, 0⟩ "p0".data {}
      (by decide),
   c6_edge_pass_resolution.2.1 [("p1".data, 1), ("p2".data, 2)]
      ⟨emptyStore, initStats, 0, 0, 0⟩ "p1".data c6Conn 1 "p2".data 2
      (by decide) (by decide) (by decide) (by decide),
   c6_edge_pass_resolution.2.2.2 "Dubious".data (by decide) (by decide) (by decide) (by decide)⟩

/-- C4 as stated is false on the code: the gazetteer adapter's own temporal
encoder treats year 0 as CE — it emits "0000-01-01" with no " BC" suffix. -/
theorem c4_counterexample_pleiades_year_zero :
    pleiadesYearToDateString 0 = "0000-01-01".data
    ∧ pyEndsWith (pleiadesYearToDateString 0) " BC".data = false := by decide

theorem digit_ne_space {ch : Char} (h : '0' ≤ ch ∧ ch ≤ '9') : ch ≠ ' ' := by
  rintro rfl
  exact absurd h.1 (by decide)

theorem digit_ne_dash {ch : Char} (h : '0' ≤ ch ∧ ch ≤ '9') : ch ≠ '-' := by
  rintro rfl
  exact absurd h.1 (by decide)

/-- C4 (amended): for every year ≤ 0 the eclipse-catalog encoder emits the
absolute value zero-padded to four digits with the " BC" era suffix (so year
exactly 0 yields "0000…" with the suffix); the gazetteer adapter's encoder
does the same only for strictly negative years and encodes year 0 as
"0000-01-01" without the suffix. -/
theorem c4_bce_encoding_amended :
    (∀ (y : Int) (m d : Nat), y ≤ 0 →
      pyEndsWith (makeDateString y m d) " BC".data = true
      ∧ isPre (padNat 4 y.natAbs) (makeDateString y m d) = true)
    ∧ (∀ y : Int, y < 0 →
      pyEndsWith (pleiadesYearToDateString y) " BC".data = true
      ∧ isPre (padNat 4 y.natAbs) (pleiadesYearToDateString y) = true)
    ∧ pleiadesYearToDateString 0 = "0000-01-01".data := by
  refine ⟨?_, ?_, rfl⟩
  · intro y m d hy
    unfold makeDateString
    rw [if_pos hy]
    refine ⟨pyEndsWith_append _ _, ?_⟩
    simp only [List.append_assoc]
    exact isPre_append_self _ _
  · intro y hy
    unfold pleiadesYearToDateString
    rw [if_pos hy]
    constructor
    · have hsplit : ("-01-01 BC".data : Str) = "-01-01".data ++ " BC".data := rfl
      rw [hsplit, ← List.append_assoc]
      exact pyEndsWith_append _ _
    · exact isPre_append_self _ _

/-- Witness for C4 (amended) at years 0 and -584. -/
theorem c4_bce_encoding_amended_witness :
    (pyEndsWith (makeDateString 0 1 1) " BC".data = true
      ∧ isPre (padNat 4 (0 : Int).natAbs) (makeDateString 0 1 1) = true)
    ∧ (pyEndsWith (pleiadesYearToDateString (-584)) " BC".data = true
      ∧ isPre (padNat 4 ((-584 : Int)).natAbs) (pleiadesYearToDateString (-584)) = true) :=
  ⟨c4_bce_encoding_amended.1 0 1 1 (by decide),
   c4_bce_encoding_amended.2.1 (-584) (by decide)⟩

theorem formatDateDisplay_bc (core : Str) (hns : ∀ ch ∈ core, ch ≠ ' ') :
    formatDateDisplay (core ++ " BC".data)
      = natDigits (parseNat ((splitOnSub "-".data core).headD [])) ++ " BCE".data := by
  unfold formatDateDisplay
  rw [if_pos (pyEndsWith_append _ _)]
  have hstrip : replaceSub " BC".data [] (core ++ " BC".data) = core :=
    replaceSub_strip ' ' "BC".data core hns
  rw [hstrip]

/-- C5: encoding year -584, month 5, day 28 produces "0584-05-28 BC";
decoding that literal displays "584 BCE"; and for every year at or below 0
(the encoder's BCE range) decoding after encoding yields the "<year> BCE"
display form. -/
theorem c5_temporal_round_trip :
    makeDateString (-584) 5 28 = "0584-05-28 BC".data
    ∧ formatDateDisplay "0584-05-28 BC".data = "584 BCE".data
    ∧ (∀ (y : Int) (m d : Nat), y ≤ 0 →
      formatDateDisplay (makeDateString y m d) = natDigits y.natAbs ++ " BCE".data) := by
  refine ⟨by decide, by decide, ?_⟩
  intro y m d hy
  have henc : makeDateString y m d
      = (padNat 4 y.natAbs ++ "-".data ++ padNat 2 m ++ "-".data ++ padNat 2 d)
        ++ " BC".data := by
    unfold makeDateString
    rw [if_pos hy]
  have hnospace : ∀ ch ∈ padNat 4 y.natAbs ++ "-".data ++ padNat 2 m ++ "-".data
      ++ padNat 2 d, ch ≠ ' ' := by
    intro ch hch
    simp only [List.append_assoc, List.mem_append] at hch
    rcases hch with h | h | h | h | h
    · exact digit_ne_space (padNat_chars 4 y.natAbs ch h)
    · simp at h; subst h; decide
    · exact digit_ne_space (padNat_chars 2 m ch h)
    · simp at h; subst h; decide
    · exact digit_ne_space (padNat_chars 2 d ch h)
  have hshape : padNat 4 y.natAbs ++ "-".data ++ padNat 2 m ++ "-".data ++ padNat 2 d
      = padNat 4 y.natAbs ++ '-' :: (padNat 2 m ++ '-' :: padNat 2 d) := by
    simp [List.append_assoc]
  have hhead : (splitOnSub "-".data (padNat 4 y.natAbs ++ "-".data ++ padNat 2 m
      ++ "-".data ++ padNat 2 d)).headD [] = padNat 4 y.natAbs := by
    rw [hshape]
    unfold splitOnSub
    apply splitFuel_head
    · intro ch hch
      exact digit_ne_dash (padNat_chars 4 y.natAbs ch hch)
    · simp only [List.length_append, List.length_cons]
      omega
  rw [henc, formatDateDisplay_bc _ hnospace, hhead, parseNat_padNat]

/-- Witness for C5 at the concrete input (-584, 5, 28). -/
theorem c5_temporal_round_trip_witness :
    formatDateDisplay (makeDateString (-584) 5 28)
      = natDigits ((-584 : Int)).natAbs ++ " BCE".data :=
  c5_temporal_round_trip.2.2 (-584) 5 28 (by decide)

/-- Connection payload of the C1 scenario: an edge from place "p1" to the
never-ingested place "p2". -/
def c1Conn : PConnPayload :=
  { connectsTo := "https://pleiades.stoa.org/places/p2".data
    connectionType := some "near".data
    associationCertainty := some "certain".data
    title := "P2".data }

/-- Place record of the C1 scenario: a named place with external id "p1" and
coordinates, carrying the connection payload that references "p2". -/
def c1Place : PlaceRecord :=
  { pid := "p1".data
    title := "Thebes".data
    placeTypes := ["settlement".data]
    reprPoint := some [(23 : ℚ), (38 : ℚ)]
    connections := [c1Conn] }

/-- C1 fails on the code: the `create_location` call inside the node pass
passes the keyword arguments uncertainty_notes, boundary_geojson,
location_changes and terrain_notes, which the base method does not accept, so
Python raises TypeError before the location is created; the per-place handler
counts one error, no location exists, no edge is queued, and the edge pass
never runs.  The run therefore ends with locations_created = 0 and errors =
1 instead of the claimed report (whose connections_skipped_missing key the
statistics record does not even contain). -/
theorem c1_gazetteer_run_errors_out :
    kwargsAccepted processPlaceCallKwargs createLocationParams = false
    ∧ pleiadesRun [c1Place] none false
      = (⟨emptyStore, { initStats with errors := 1 }, [], []⟩, none) := by
  constructor
  · decide
  · decide
